import Mathlib

/-!
Verification development for the Casualty Exposure Explorer
(src/app.py, the embedded Streamlit application).

The core logic of the application is a data pipeline:
raw spreadsheet rows → `load_policies` (the Normalizer: type coercion and
derived columns) → canonical table → filter mask (`apply_filter`, ten
AND-ed column constraints) → filtered table and KPI metrics.

This file shallowly embeds that pipeline. Python/pandas floats are modelled
by `PyFloat` (a rational or NaN; pandas represents a null numeric cell as
NaN, and every comparison against NaN is false). Raw spreadsheet cells of
date and numeric columns are modelled by `DateCell` and `NumCell`. The
pandas library functions the code calls are modelled from their documented
semantics: `pd.to_numeric(·, errors="coerce")` substitutes NaN for
unparseable values, while `pd.to_datetime(·)` with its default
`errors="raise"` raises on an unparseable value (this asymmetry in the
source is load-bearing below). Calendar dates are encoded as integers
y*10000 + m*100 + d; the string parsers are simplified stand-ins that
accept ISO-style inputs and reject everything non-numeric, which is all
the claims need.
-/

/-- A pandas float cell: a finite rational or NaN (pandas encodes a null
numeric cell as NaN). -/
inductive PyFloat where
  | finite (q : ℚ)
  | nan
deriving DecidableEq, Repr

/-- Python comparison `x <= c` where `x` may be NaN: any comparison with
NaN is false. -/
def pyLe (x : PyFloat) (c : ℚ) : Bool :=
  match x with
  | .finite q => decide (q ≤ c)
  | .nan => false

/-- Python comparison `x == 0` where `x` may be NaN: false for NaN. -/
def pyEqZero (x : PyFloat) : Bool :=
  match x with
  | .finite q => decide (q = 0)
  | .nan => false

/-- Pandas elementwise multiplication: NaN propagates. -/
def pyMul (x y : PyFloat) : PyFloat :=
  match x, y with
  | .finite a, .finite b => .finite (a * b)
  | _, _ => .nan

/-- Pandas `Series.sum()` with the default `skipna=True`: sum of the
finite entries, 0 for an empty (or all-NaN) column. -/
def pySum (xs : List PyFloat) : ℚ :=
  xs.foldr (fun x acc => match x with | .finite q => q + acc | .nan => acc) 0

/-- Embeds `band_limit` from src/app.py lines 40-45: a chain of `if x <= c`
tests, first match wins, default "$10M+". -/
def band_limit (x : PyFloat) : String :=
  if pyLe x 1000000 then "$1M"
  else if pyLe x 2000000 then "$2M"
  else if pyLe x 3000000 then "$3M"
  else if pyLe x 5000000 then "$5M"
  else "$10M+"

/-- Embeds `band_attach` from src/app.py lines 46-51. -/
def band_attach (x : PyFloat) : String :=
  if pyEqZero x then "$0 (Primary)"
  else if pyLe x 1000000 then "$1M"
  else if pyLe x 2000000 then "$2M"
  else if pyLe x 5000000 then "$5M"
  else "$10M+"

/-- Position of a limit-band label in the threshold order, used to state
monotonicity of the banding. -/
def bandIdx (s : String) : Nat :=
  if s = "$1M" then 0
  else if s = "$2M" then 1
  else if s = "$3M" then 2
  else if s = "$5M" then 3
  else 4

/-- A raw cell of a date column as read from the spreadsheet: missing, a
string, or an already-typed date. -/
inductive DateCell where
  | null
  | str (s : String)
  | date (d : Int)
deriving DecidableEq, Repr

/-- A raw cell of a numeric column as read from the spreadsheet: missing, a
string, or an already-typed number. -/
inductive NumCell where
  | null
  | str (s : String)
  | num (q : ℚ)
deriving DecidableEq, Repr

/-- Splits a character list on a separator character. -/
def splitOnChar (c : Char) : List Char → List (List Char)
  | [] => [[]]
  | x :: xs =>
    if x = c then [] :: splitOnChar c xs
    else
      match splitOnChar c xs with
      | [] => [[x]]
      | y :: ys => (x :: y) :: ys

/-- Value of a decimal digit character, none for a non-digit. -/
def digitVal (c : Char) : Option Nat :=
  if '0' ≤ c ∧ c ≤ '9' then some (c.toNat - 48) else none

/-- Accumulates a decimal numeral over a character list. -/
def digitsToNat (acc : Nat) : List Char → Option Nat
  | [] => some acc
  | c :: cs =>
    match digitVal c with
    | some d => digitsToNat (acc * 10 + d) cs
    | none => none

/-- Reads a non-empty all-digit character list as a natural number. -/
def charsToNat (l : List Char) : Option Nat :=
  match l with
  | [] => none
  | _ => digitsToNat 0 l

/-- Simplified stand-in for pandas date-string parsing: accepts
"YYYY-MM-DD" with plausible month/day ranges, encoded y*10000+m*100+d;
rejects everything else. -/
def parseDate (s : String) : Option Int :=
  match (splitOnChar '-' s.data).map charsToNat with
  | [some y, some m, some d] =>
    if 1 ≤ m ∧ m ≤ 12 ∧ 1 ≤ d ∧ d ≤ 31 then
      some ((y : Int) * 10000 + (m : Int) * 100 + (d : Int))
    else none
  | _ => none

/-- Simplified stand-in for pandas numeric-string parsing: accepts a plain
(optionally negated) integer literal, rejects everything else. -/
def parseNum (s : String) : Option ℚ :=
  match s.data with
  | '-' :: rest => (charsToNat rest).map fun n => -(n : ℚ)
  | l => (charsToNat l).map fun n => (n : ℚ)

/-- Embeds `pd.to_datetime(df[c])` as called on src/app.py line 29: the
default `errors="raise"` policy, so a missing value becomes null (NaT) but
an unparseable string raises, aborting the load. -/
def coerceDate (c : DateCell) : Except String (Option Int) :=
  match c with
  | .null => .ok none
  | .date d => .ok (some d)
  | .str s =>
    match parseDate s with
    | some d => .ok (some d)
    | none => .error ("could not convert to datetime: " ++ s)

/-- Embeds `pd.to_numeric(df[c], errors="coerce")` from src/app.py line 33:
missing or unparseable values become NaN (null), never raising. -/
def to_numeric (c : NumCell) : PyFloat :=
  match c with
  | .null => .nan
  | .num q => .finite q
  | .str s =>
    match parseNum s with
    | some q => .finite q
    | none => .nan

/-- Truncation of an encoded date to the first day of its month, embedding
`dt.to_period("M").dt.to_timestamp()` from src/app.py line 38. -/
def monthStart (d : Int) : Int := (d / 100) * 100 + 1

/-- Embeds the `MGA_Flag` derivation from src/app.py line 36:
`np.where(df["MGA"].fillna("N/A")=="N/A","No MGA","MGA")`. -/
def mgaFlag (m : Option String) : String :=
  match m with
  | none => "No MGA"
  | some s => if s = "N/A" then "No MGA" else "MGA"

/-- A raw input row of the "Policies" sheet, before normalization.
Categorical columns are passed through untouched by the code, so they are
typed directly; date and numeric columns carry raw cells. -/
structure RawRecord where
  Policy_Number : Option String
  UY : Option Int
  LOB : Option String
  Sub_LOB : Option String
  Policy_Type : Option String
  Business_ID : Option String
  Ceding_Company : Option String
  MGA : Option String
  Venue : Option String
  Effective_Date : DateCell
  Expiration_Date : DateCell
  Annual_Premium : NumCell
  Limit_Per_Occurrence : NumCell
  Limit_Aggregate : NumCell
  Attachment_Point : NumCell
  Share : NumCell
deriving DecidableEq, Repr

/-- A canonical Policy Record: the row after `load_policies` has coerced
types and computed the derived columns (src/app.py lines 24-54). -/
structure Record where
  Policy_Number : Option String
  UY : Option Int
  LOB : Option String
  Sub_LOB : Option String
  Policy_Type : Option String
  Business_ID : Option String
  Ceding_Company : Option String
  MGA : Option String
  Venue : Option String
  Effective_Date : Option Int
  Expiration_Date : Option Int
  Annual_Premium : PyFloat
  Limit_Per_Occurrence : PyFloat
  Limit_Aggregate : PyFloat
  Attachment_Point : PyFloat
  Share : PyFloat
  MGA_Flag : String
  Inception_Month : Option Int
  Limit_Band : String
  Attachment_Band : String
  Exposed_Limit : PyFloat
deriving DecidableEq, Repr

/-- The canonical record built from a raw row once both date columns have
been coerced: numeric coercion, then the derived columns MGA_Flag,
Inception_Month, Limit_Band, Attachment_Band, Exposed_Limit, each a pure
function of its source columns (src/app.py lines 30-54). -/
def mkRecord (w : RawRecord) (eff expd : Option Int) : Record :=
  { Policy_Number := w.Policy_Number
    UY := w.UY
    LOB := w.LOB
    Sub_LOB := w.Sub_LOB
    Policy_Type := w.Policy_Type
    Business_ID := w.Business_ID
    Ceding_Company := w.Ceding_Company
    MGA := w.MGA
    Venue := w.Venue
    Effective_Date := eff
    Expiration_Date := expd
    Annual_Premium := to_numeric w.Annual_Premium
    Limit_Per_Occurrence := to_numeric w.Limit_Per_Occurrence
    Limit_Aggregate := to_numeric w.Limit_Aggregate
    Attachment_Point := to_numeric w.Attachment_Point
    Share := to_numeric w.Share
    MGA_Flag := mgaFlag w.MGA
    Inception_Month := eff.map monthStart
    Limit_Band := band_limit (to_numeric w.Limit_Per_Occurrence)
    Attachment_Band := band_attach (to_numeric w.Attachment_Point)
    Exposed_Limit := pyMul (to_numeric w.Limit_Per_Occurrence) (to_numeric w.Share) }

/-- Normalization of one row, embedding the body of `load_policies`
(src/app.py lines 24-54): date coercion first (raising on an unparseable
value, Effective_Date before Expiration_Date), then the coerced and
derived columns via `mkRecord`. -/
def normalizeRecord (w : RawRecord) : Except String Record :=
  match coerceDate w.Effective_Date, coerceDate w.Expiration_Date with
  | .error e, _ => .error e
  | .ok _, .error e => .error e
  | .ok eff, .ok expd => .ok (mkRecord w eff expd)

/-- Normalization of a whole table: any row-level date-parse error aborts
the load (the column-wise pandas call raises for the whole frame). -/
def normalizeTable : List RawRecord → Except String (List Record)
  | [] => .ok []
  | w :: ws =>
    match normalizeRecord w, normalizeTable ws with
    | .ok r, .ok rs => .ok (r :: rs)
    | .error e, _ => .error e
    | .ok _, .error e => .error e

/-- Embeds `load_policies` (src/app.py lines 18-55): an empty frame is
returned untouched (the `if not df.empty` guard); otherwise every column is
coerced and the derived columns computed. -/
def load_policies (df : List RawRecord) : Except String (List Record) :=
  if df.isEmpty then .ok [] else normalizeTable df

/-- A typed date value rendered back as a raw cell. -/
def dateToCell (o : Option Int) : DateCell :=
  match o with
  | some d => .date d
  | none => .null

/-- A typed numeric value rendered back as a raw cell: NaN (the pandas null
numeric) reads back as missing. -/
def pyFloatToCell (x : PyFloat) : NumCell :=
  match x with
  | .finite q => .num q
  | .nan => .null

/-- Re-reads a canonical record as raw spreadsheet cells (what the row
looks like if written out and loaded again): typed dates and numbers stay
typed, a null numeric (NaN) cell reads back as missing. Used to state
idempotence of the Normalizer. -/
def recordToRaw (r : Record) : RawRecord :=
  { Policy_Number := r.Policy_Number
    UY := r.UY
    LOB := r.LOB
    Sub_LOB := r.Sub_LOB
    Policy_Type := r.Policy_Type
    Business_ID := r.Business_ID
    Ceding_Company := r.Ceding_Company
    MGA := r.MGA
    Venue := r.Venue
    Effective_Date := dateToCell r.Effective_Date
    Expiration_Date := dateToCell r.Expiration_Date
    Annual_Premium := pyFloatToCell r.Annual_Premium
    Limit_Per_Occurrence := pyFloatToCell r.Limit_Per_Occurrence
    Limit_Aggregate := pyFloatToCell r.Limit_Aggregate
    Attachment_Point := pyFloatToCell r.Attachment_Point
    Share := pyFloatToCell r.Share }

/-- The user's filter selection: for each of the ten selectable columns, a
list of accepted values; an empty list means no constraint (src/app.py
lines 97-109; the multiselect options are drawn from `dropna().unique()`,
so a selection never contains a null). -/
structure Selection where
  uy : List Int
  lob : List String
  sublob : List String
  policy_type : List String
  business_id : List String
  cedent : List String
  mga : List String
  venue : List String
  limit_band : List String
  attach_band : List String
deriving DecidableEq, Repr

/-- Embeds `apply_filter` (src/app.py lines 112-113):
`series.isin(values) if values else True`, evaluated at one cell. A null
cell is a member of no (non-null) value list, so it fails any non-empty
constraint. -/
def apply_filter {α : Type} [DecidableEq α] (v : Option α) (values : List α) : Bool :=
  if values.isEmpty then true
  else match v with
    | none => false
    | some x => decide (x ∈ values)

/-- The row-level filter mask, embedding the ten-way conjunction of
src/app.py lines 115-126. -/
def rowMask (r : Record) (s : Selection) : Bool :=
  apply_filter r.UY s.uy &&
  apply_filter r.LOB s.lob &&
  apply_filter r.Sub_LOB s.sublob &&
  apply_filter r.Policy_Type s.policy_type &&
  apply_filter r.Business_ID s.business_id &&
  apply_filter r.Ceding_Company s.cedent &&
  apply_filter r.MGA s.mga &&
  apply_filter r.Venue s.venue &&
  apply_filter (some r.Limit_Band) s.limit_band &&
  apply_filter (some r.Attachment_Band) s.attach_band

/-- Embeds `f = f.loc[mask]` (src/app.py line 128): keep exactly the rows
whose mask is true, in their original order. -/
def filterTable (df : List Record) (s : Selection) : List Record :=
  df.filter (fun r => rowMask r s)

/-- The five KPI values shown by the app. -/
structure KPI where
  policies : Nat
  premium : ℚ
  exposed_limit : ℚ
  primary_pct : ℚ
  treaties : Nat
deriving DecidableEq, Repr

/-- Embeds the KPI block (src/app.py lines 131-137): row count, NaN-skipping
premium sum, NaN-skipping sum of Limit_Per_Occurrence × Share, the
explicitly empty-guarded primary percentage, and the distinct non-null
Business_ID count (`nunique`). -/
def computeKPIs (f : List Record) : KPI :=
  { policies := f.length
    premium := pySum (f.map (·.Annual_Premium))
    exposed_limit := pySum (f.map (fun r => pyMul r.Limit_Per_Occurrence r.Share))
    primary_pct :=
      if f.isEmpty then 100 * 0
      else 100 * ((f.countP (fun r => r.Policy_Type = some "Primary") : ℚ) / (f.length : ℚ))
    treaties := (f.filterMap (·.Business_ID)).dedup.length }

/-- The table reaching the filter stage: either a raw frame (no coercion,
no derived columns) or a canonical one. -/
inductive LoadedTable where
  | rawTable (t : List RawRecord)
  | canonicalTable (t : List Record)
deriving DecidableEq, Repr

/-- Whether the table reaching the filter stage went through the
Normalizer. -/
def LoadedTable.isCanonical : LoadedTable → Bool
  | .rawTable _ => false
  | .canonicalTable _ => true

/-- Embeds the load branch of src/app.py lines 76-80: a user upload is read
with a bare `pd.read_excel` and used as-is, while only the default path
goes through `load_policies`. -/
def selectTable (upl : Option (List RawRecord)) (defaultDf : List RawRecord) :
    Except String LoadedTable :=
  match upl with
  | some u => .ok (.rawTable u)
  | none => (load_policies defaultDf).map .canonicalTable

/-! Sample data used by the concrete witnesses below. -/

/-- A raw sample row with all cells populated and a string-typed effective
date. -/
def rawSample : RawRecord :=
  { Policy_Number := some "P-001"
    UY := some 2023
    LOB := some "GL"
    Sub_LOB := some "Contractors"
    Policy_Type := some "Primary"
    Business_ID := some "T-100"
    Ceding_Company := some "Acme Insurance"
    MGA := some "N/A"
    Venue := some "TX"
    Effective_Date := .date 20230115
    Expiration_Date := .date 20240115
    Annual_Premium := .num 125000
    Limit_Per_Occurrence := .num 2000000
    Limit_Aggregate := .num 4000000
    Attachment_Point := .num 0
    Share := .num (1/4) }

/-- The canonical record `load_policies` produces from `rawSample`. -/
def recSample : Record :=
  { Policy_Number := some "P-001"
    UY := some 2023
    LOB := some "GL"
    Sub_LOB := some "Contractors"
    Policy_Type := some "Primary"
    Business_ID := some "T-100"
    Ceding_Company := some "Acme Insurance"
    MGA := some "N/A"
    Venue := some "TX"
    Effective_Date := some 20230115
    Expiration_Date := some 20240115
    Annual_Premium := .finite 125000
    Limit_Per_Occurrence := .finite 2000000
    Limit_Aggregate := .finite 4000000
    Attachment_Point := .finite 0
    Share := .finite (1/4)
    MGA_Flag := "No MGA"
    Inception_Month := some 20230101
    Limit_Band := "$2M"
    Attachment_Band := "$0 (Primary)"
    Exposed_Limit := .finite (2000000 * (1/4)) }

/-- A raw row whose limit, attachment and share cells are missing. -/
def rawNull : RawRecord :=
  { rawSample with
    Limit_Per_Occurrence := .null
    Attachment_Point := .null
    Share := .null }

/-- The canonical record `load_policies` produces from `rawNull`: the null
numeric cells become NaN, and the banding functions send NaN to the
default "$10M+" bucket. -/
def recNull : Record :=
  { recSample with
    Limit_Per_Occurrence := .nan
    Attachment_Point := .nan
    Share := .nan
    Limit_Band := "$10M+"
    Attachment_Band := "$10M+"
    Exposed_Limit := .nan }

/-- A raw row with an unparseable effective date. -/
def rawBadDate : RawRecord :=
  { rawSample with Effective_Date := .str "not-a-date" }

/-- A selection constraining UY to a year `recSample` does not have, all
other columns unconstrained. -/
def selNoMatch : Selection :=
  { uy := [1999], lob := [], sublob := [], policy_type := [], business_id := []
    cedent := [], mga := [], venue := [], limit_band := [], attach_band := [] }

/-! Helper lemmas. -/

/-- Characterization of `apply_filter`: true exactly when the value list is
empty, or the cell is non-null and its value appears in the list. -/
lemma apply_filter_true_iff {α : Type} [DecidableEq α] (v : Option α) (l : List α) :
    apply_filter v l = true ↔ (l = [] ∨ ∃ x, v = some x ∧ x ∈ l) := by
  unfold apply_filter
  cases l with
  | nil => simp
  | cons a as => cases v <;> simp

/-- Inversion of a successful row normalization. -/
lemma normalizeRecord_ok (w : RawRecord) (r : Record)
    (h : normalizeRecord w = .ok r) :
    ∃ eff expd, coerceDate w.Effective_Date = .ok eff ∧
      coerceDate w.Expiration_Date = .ok expd ∧ r = mkRecord w eff expd := by
  unfold normalizeRecord at h
  cases hE : coerceDate w.Effective_Date <;> rw [hE] at h
  · exact absurd h (by simp)
  cases hX : coerceDate w.Expiration_Date <;> rw [hX] at h
  · exact absurd h (by simp)
  exact ⟨_, _, rfl, rfl, (Except.ok.inj h).symm⟩

lemma coerceDate_dateToCell (o : Option Int) : coerceDate (dateToCell o) = .ok o := by
  cases o <;> rfl

lemma to_numeric_pyFloatToCell (x : PyFloat) : to_numeric (pyFloatToCell x) = x := by
  cases x <;> rfl

lemma pyMul_nan_left (y : PyFloat) : pyMul .nan y = .nan := by
  cases y <;> rfl

lemma pyMul_nan_right (x : PyFloat) : pyMul x .nan = .nan := by
  cases x <;> rfl

/-- Re-normalizing the raw rendering of an already-normalized row
reproduces it field for field. -/
lemma normalizeRecord_roundtrip (w : RawRecord) (r : Record)
    (h : normalizeRecord w = .ok r) :
    normalizeRecord (recordToRaw r) = .ok r := by
  obtain ⟨eff, expd, hE, hX, rfl⟩ := normalizeRecord_ok w r h
  simp [normalizeRecord, recordToRaw, mkRecord, coerceDate_dateToCell,
    to_numeric_pyFloatToCell]

/-- Table-level version of `normalizeRecord_roundtrip`. -/
lemma normalizeTable_roundtrip (t : List RawRecord) :
    ∀ r, normalizeTable t = .ok r →
      normalizeTable (r.map recordToRaw) = .ok r := by
  induction t with
  | nil =>
    intro r h
    obtain rfl := (Except.ok.inj h).symm
    rfl
  | cons w ws ih =>
    intro r h
    unfold normalizeTable at h
    cases hw : normalizeRecord w <;> rw [hw] at h
    · exact absurd h (by simp)
    cases hws : normalizeTable ws <;> rw [hws] at h
    · exact absurd h (by simp)
    obtain rfl := (Except.ok.inj h).symm
    simp [normalizeTable, normalizeRecord_roundtrip w _ hw, ih _ hws]

/-! Claim theorems. -/

/-- C1: a record appears in the filtered subset iff it is in the table and,
for each of the ten selectable columns with a non-empty accepted-value
set, the record's value in that column is a (non-null) member of that set;
empty sets impose no constraint and the predicate is the conjunction over
all ten columns. -/
theorem filter_membership_conjunction (df : List Record) (s : Selection) (r : Record) :
    r ∈ filterTable df s ↔
      r ∈ df ∧
      (s.uy = [] ∨ ∃ v, r.UY = some v ∧ v ∈ s.uy) ∧
      (s.lob = [] ∨ ∃ v, r.LOB = some v ∧ v ∈ s.lob) ∧
      (s.sublob = [] ∨ ∃ v, r.Sub_LOB = some v ∧ v ∈ s.sublob) ∧
      (s.policy_type = [] ∨ ∃ v, r.Policy_Type = some v ∧ v ∈ s.policy_type) ∧
      (s.business_id = [] ∨ ∃ v, r.Business_ID = some v ∧ v ∈ s.business_id) ∧
      (s.cedent = [] ∨ ∃ v, r.Ceding_Company = some v ∧ v ∈ s.cedent) ∧
      (s.mga = [] ∨ ∃ v, r.MGA = some v ∧ v ∈ s.mga) ∧
      (s.venue = [] ∨ ∃ v, r.Venue = some v ∧ v ∈ s.venue) ∧
      (s.limit_band = [] ∨ r.Limit_Band ∈ s.limit_band) ∧
      (s.attach_band = [] ∨ r.Attachment_Band ∈ s.attach_band) := by
  simp only [filterTable, List.mem_filter, rowMask, Bool.and_eq_true,
    apply_filter_true_iff, Option.some.injEq, exists_eq_left', and_assoc]

/-- C2: band_limit on a finite input follows the fixed first-match-wins
threshold order, always lands in the five-label set, and is monotone
non-decreasing. -/
theorem band_limit_thresholds_monotone (x : ℚ) :
    band_limit (.finite x) =
      (if x ≤ 1000000 then "$1M" else if x ≤ 2000000 then "$2M"
       else if x ≤ 3000000 then "$3M" else if x ≤ 5000000 then "$5M" else "$10M+") ∧
    band_limit (.finite x) ∈ (["$1M", "$2M", "$3M", "$5M", "$10M+"] : List String) ∧
    ∀ y : ℚ, x ≤ y →
      bandIdx (band_limit (.finite x)) ≤ bandIdx (band_limit (.finite y)) := by
  have hchar : ∀ z : ℚ, band_limit (.finite z) =
      (if z ≤ 1000000 then "$1M" else if z ≤ 2000000 then "$2M"
       else if z ≤ 3000000 then "$3M" else if z ≤ 5000000 then "$5M" else "$10M+") := by
    intro z
    simp [band_limit, pyLe]
  have hidx : ∀ z : ℚ, bandIdx (band_limit (.finite z)) =
      (if z ≤ 1000000 then 0 else if z ≤ 2000000 then 1
       else if z ≤ 3000000 then 2 else if z ≤ 5000000 then 3 else 4) := by
    intro z
    rw [hchar z, bandIdx]
    split_ifs <;> simp_all
  refine ⟨hchar x, ?_, ?_⟩
  · rw [hchar x]
    split_ifs <;> simp
  · intro y hxy
    rw [hidx x, hidx y]
    split_ifs <;> first | omega | linarith

/-- C2 witness: the theorem applied at the concrete boundary inputs
1,000,000 and 2,000,000. -/
theorem band_limit_thresholds_monotone_witness :
    band_limit (.finite 1000000) = "$1M" ∧
    bandIdx (band_limit (.finite 1000000)) ≤ bandIdx (band_limit (.finite 2000000)) := by
  have h := band_limit_thresholds_monotone 1000000
  refine ⟨?_, h.2.2 2000000 (by norm_num)⟩
  rw [h.1]
  norm_num

/-- C3: band_attach on a finite input follows the fixed first-match-wins
order with the zero case first, and takes the claimed values at 0,
1,000,000, 5,000,000 and 5,000,001. -/
theorem band_attach_thresholds :
    (∀ x : ℚ, band_attach (.finite x) =
      (if x = 0 then "$0 (Primary)" else if x ≤ 1000000 then "$1M"
       else if x ≤ 2000000 then "$2M" else if x ≤ 5000000 then "$5M" else "$10M+")) ∧
    band_attach (.finite 0) = "$0 (Primary)" ∧
    band_attach (.finite 1000000) = "$1M" ∧
    band_attach (.finite 5000000) = "$5M" ∧
    band_attach (.finite 5000001) = "$10M+" := by
  refine ⟨fun x => by simp [band_attach, pyEqZero, pyLe], ?_, ?_, ?_, ?_⟩ <;> decide

/-- C4: for every successfully normalized record, Exposed_Limit is the
product Limit_Per_Occurrence × Share: finite × finite gives the finite
product, and a null (NaN) operand makes Exposed_Limit null. -/
theorem exposed_limit_product (w : RawRecord) (r : Record)
    (h : normalizeRecord w = .ok r) :
    r.Exposed_Limit = pyMul r.Limit_Per_Occurrence r.Share ∧
    (∀ a b, r.Limit_Per_Occurrence = .finite a → r.Share = .finite b →
      r.Exposed_Limit = .finite (a * b)) ∧
    ((r.Limit_Per_Occurrence = .nan ∨ r.Share = .nan) → r.Exposed_Limit = .nan) := by
  obtain ⟨eff, expd, hE, hX, rfl⟩ := normalizeRecord_ok w r h
  refine ⟨rfl, ?_, ?_⟩
  · intro a b ha hb
    simp only [mkRecord] at ha hb ⊢
    rw [ha, hb]
    rfl
  · rintro (hl | hs)
    · simp only [mkRecord] at hl ⊢
      rw [hl, pyMul_nan_left]
    · simp only [mkRecord] at hs ⊢
      rw [hs, pyMul_nan_right]

/-- C4 witness: the concrete record from the spec's example,
Limit_Per_Occurrence = 2,000,000 and Share = 1/4, giving
Exposed_Limit = 500,000. -/
theorem exposed_limit_product_witness :
    normalizeRecord rawSample = .ok recSample ∧
    recSample.Exposed_Limit = .finite (2000000 * (1/4)) ∧
    (2000000 * (1/4) : ℚ) = 500000 := by
  have hn : normalizeRecord rawSample = .ok recSample := rfl
  exact ⟨hn, (exposed_limit_product rawSample recSample hn).2.1 2000000 (1/4) rfl rfl,
    by norm_num⟩

/-- C5 counterexample: a row whose Effective_Date cell is the unparseable
string "not-a-date" makes the whole load abort with an error instead of
substituting null, refuting the claim that date parsing never raises. -/
theorem date_parse_raises_cex :
    load_policies [rawBadDate] =
      .error ("could not convert to datetime: " ++ "not-a-date") := rfl

/-- C5 amended: missing date values and typed dates coerce without error,
but an unparseable date string is an error that aborts the load (the date
coercion, unlike the numeric coercion, does not substitute null). -/
theorem date_parse_amended :
    coerceDate DateCell.null = .ok none ∧
    (∀ d, coerceDate (.date d) = .ok (some d)) ∧
    (∀ s, parseDate s = none →
      coerceDate (.str s) = .error ("could not convert to datetime: " ++ s)) := by
  refine ⟨rfl, fun d => rfl, fun s h => ?_⟩
  simp [coerceDate, h]

/-- C5 amended witness: the amended theorem applied at the concrete
unparseable string "not-a-date". -/
theorem date_parse_amended_witness :
    parseDate "not-a-date" = none ∧
    coerceDate (.str "not-a-date") =
      .error ("could not convert to datetime: " ++ "not-a-date") :=
  ⟨rfl, date_parse_amended.2.2 "not-a-date" rfl⟩

/-- C6: whenever the filtered subset is empty, the KPI block computes
without error and yields 0 policies, 0 premium, 0 exposed limit, 0.0
percent primary and 0 distinct treaties. -/
theorem kpis_empty_subset (df : List Record) (s : Selection)
    (h : filterTable df s = []) :
    computeKPIs (filterTable df s) =
      { policies := 0, premium := 0, exposed_limit := 0, primary_pct := 100 * 0, treaties := 0 } := by
  rw [h]
  rfl

/-- C6 witness: a one-record table and a UY selection matching nothing. -/
theorem kpis_empty_subset_witness :
    filterTable [recSample] selNoMatch = [] ∧
    computeKPIs (filterTable [recSample] selNoMatch) =
      { policies := 0, premium := 0, exposed_limit := 0, primary_pct := 100 * 0, treaties := 0 } :=
  ⟨rfl, kpis_empty_subset [recSample] selNoMatch rfl⟩

/-- C7 (code bug): a user upload reaches the filter stage as the raw frame,
bypassing the Normalizer entirely, while `load_policies` on the same rows
would have produced the canonical table with the derived columns; the
claim (and spec section 2) says every load is normalized first. -/
theorem upload_bypasses_normalizer :
    selectTable (some [rawSample]) [] = .ok (.rawTable [rawSample]) ∧
    (selectTable (some [rawSample]) []).map LoadedTable.isCanonical = .ok false ∧
    load_policies [rawSample] = .ok [recSample] :=
  ⟨rfl, rfl, rfl⟩

/-- C8: filtering is deterministic (equal tables and selections give equal
results) and order-preserving (the result is a subsequence of the input
table; no reordering). -/
theorem filter_deterministic_order_preserving
    (df df' : List Record) (s s' : Selection)
    (hdf : df' = df) (hs : s' = s) :
    filterTable df' s' = filterTable df s ∧
    (filterTable df s).Sublist df := by
  subst hdf hs
  exact ⟨rfl, List.filter_sublist _⟩

/-- C8 witness: the theorem applied at a concrete table and selection. -/
theorem filter_deterministic_order_preserving_witness :
    filterTable [recSample] selNoMatch = filterTable [recSample] selNoMatch ∧
    (filterTable [recSample] selNoMatch).Sublist [recSample] :=
  filter_deterministic_order_preserving [recSample] [recSample] selNoMatch selNoMatch rfl rfl

/-- C9: the Normalizer is idempotent: re-loading the raw rendering of a
successfully normalized table reproduces the same table, field for field
(all derived columns are stable under re-derivation). -/
theorem normalizer_idempotent (t : List RawRecord) (r : List Record)
    (h : load_policies t = .ok r) :
    load_policies (r.map recordToRaw) = .ok r := by
  unfold load_policies at h ⊢
  by_cases ht : t.isEmpty
  · rw [if_pos ht] at h
    obtain rfl := (Except.ok.inj h).symm
    simp
  · rw [if_neg ht] at h
    have h2 := normalizeTable_roundtrip t r h
    by_cases hr : (r.map recordToRaw).isEmpty
    · rw [if_pos hr]
      simp only [List.isEmpty_iff, List.map_eq_nil_iff] at hr
      subst hr
      rfl
    · rw [if_neg hr]
      exact h2

/-- C9 witness: the theorem applied to the concrete one-row load of
`rawSample`. -/
theorem normalizer_idempotent_witness :
    load_policies [rawSample] = .ok [recSample] ∧
    load_policies ([recSample].map recordToRaw) = .ok [recSample] :=
  ⟨rfl, normalizer_idempotent [rawSample] [recSample] rfl⟩

/-- C10: the banding functions are total on NaN with no null output: both
send NaN to "$10M+", so a normalized record whose Limit_Per_Occurrence or
Attachment_Point is null carries the band "$10M+" rather than a null
band. -/
theorem band_nan_default :
    band_limit .nan = "$10M+" ∧ band_attach .nan = "$10M+" ∧
    ∀ w r, normalizeRecord w = .ok r →
      (r.Limit_Per_Occurrence = .nan → r.Limit_Band = "$10M+") ∧
      (r.Attachment_Point = .nan → r.Attachment_Band = "$10M+") := by
  refine ⟨rfl, rfl, fun w r h => ?_⟩
  obtain ⟨eff, expd, hE, hX, rfl⟩ := normalizeRecord_ok w r h
  constructor
  · intro hx
    simp only [mkRecord] at hx ⊢
    rw [hx]
    rfl
  · intro hx
    simp only [mkRecord] at hx ⊢
    rw [hx]
    rfl

/-- C10 witness: the row with missing limit, attachment and share cells
normalizes to NaN numerics and the "$10M+" bands. -/
theorem band_nan_default_witness :
    normalizeRecord rawNull = .ok recNull ∧
    recNull.Limit_Band = "$10M+" ∧ recNull.Attachment_Band = "$10M+" := by
  have h : normalizeRecord rawNull = .ok recNull := rfl
  have h2 := band_nan_default.2.2 rawNull recNull h
  exact ⟨h, h2.1 rfl, h2.2 rfl⟩
